import Mathlib

/-!
Shallow embedding of `ziper_imager.go` (package main) and of the image
matchers of its dependency `github.com/h2non/filetype` that the program
calls through `filetype.IsImage`.

Bytes are modelled as `Nat` (values below 256 in every concrete input),
byte buffers as `List Nat`, and paths as `String`.  `filepath.Join` is
modelled as separator concatenation (Go's path cleaning is not modelled;
no claim depends on it).  Fallible filesystem operations are modelled by
explicit success flags carried by the filesystem model, and fallible Go
functions returning `error` become `Except String`.
-/

set_option maxRecDepth 100000

namespace ZiperImager

/-- `buf[i]` for a Go byte slice: every access in the matchers is guarded
by a length test, so a default of 0 is never observed. -/
def byteAt (buf : List Nat) (i : Nat) : Nat := buf.getD i 0

/-! ### Image matchers of github.com/h2non/filetype (matchers/image.go)

Each definition is a direct transcription of the corresponding Go
matcher function; `IsImage` is their disjunction, as `filetype.IsImage`
returns true iff some image matcher accepts the buffer. -/

def Jpeg (buf : List Nat) : Bool :=
  decide (buf.length > 2) &&
    (byteAt buf 0 == 0xFF && byteAt buf 1 == 0xD8 && byteAt buf 2 == 0xFF)

def Jpeg2000 (buf : List Nat) : Bool :=
  decide (buf.length > 12) &&
    (byteAt buf 0 == 0x0 && byteAt buf 1 == 0x0 && byteAt buf 2 == 0x0 &&
     byteAt buf 3 == 0xC && byteAt buf 4 == 0x6A && byteAt buf 5 == 0x50 &&
     byteAt buf 6 == 0x20 && byteAt buf 7 == 0x20 && byteAt buf 8 == 0xD &&
     byteAt buf 9 == 0xA && byteAt buf 10 == 0x87 && byteAt buf 11 == 0xA &&
     byteAt buf 12 == 0x0)

def Png (buf : List Nat) : Bool :=
  decide (buf.length > 3) &&
    (byteAt buf 0 == 0x89 && byteAt buf 1 == 0x50 &&
     byteAt buf 2 == 0x4E && byteAt buf 3 == 0x47)

def Gif (buf : List Nat) : Bool :=
  decide (buf.length > 2) &&
    (byteAt buf 0 == 0x47 && byteAt buf 1 == 0x49 && byteAt buf 2 == 0x46)

def Webp (buf : List Nat) : Bool :=
  decide (buf.length > 11) &&
    (byteAt buf 8 == 0x57 && byteAt buf 9 == 0x45 &&
     byteAt buf 10 == 0x42 && byteAt buf 11 == 0x50)

def CR2 (buf : List Nat) : Bool :=
  decide (buf.length > 10) &&
    ((byteAt buf 0 == 0x49 && byteAt buf 1 == 0x49 &&
      byteAt buf 2 == 0x2A && byteAt buf 3 == 0x0) ||
     (byteAt buf 0 == 0x4D && byteAt buf 1 == 0x4D &&
      byteAt buf 2 == 0x0 && byteAt buf 3 == 0x2A)) &&
    (byteAt buf 8 == 0x43 && byteAt buf 9 == 0x52 && byteAt buf 10 == 0x02)

def Tiff (buf : List Nat) : Bool :=
  decide (buf.length > 10) &&
    ((byteAt buf 0 == 0x49 && byteAt buf 1 == 0x49 &&
      byteAt buf 2 == 0x2A && byteAt buf 3 == 0x0) ||
     (byteAt buf 0 == 0x4D && byteAt buf 1 == 0x4D &&
      byteAt buf 2 == 0x0 && byteAt buf 3 == 0x2A)) &&
    !CR2 buf

def Bmp (buf : List Nat) : Bool :=
  decide (buf.length > 1) && (byteAt buf 0 == 0x42 && byteAt buf 1 == 0x4D)

def Jxr (buf : List Nat) : Bool :=
  decide (buf.length > 2) &&
    (byteAt buf 0 == 0x49 && byteAt buf 1 == 0x49 && byteAt buf 2 == 0xBC)

def Psd (buf : List Nat) : Bool :=
  decide (buf.length > 3) &&
    (byteAt buf 0 == 0x38 && byteAt buf 1 == 0x42 &&
     byteAt buf 2 == 0x50 && byteAt buf 3 == 0x53)

def Ico (buf : List Nat) : Bool :=
  decide (buf.length > 3) &&
    (byteAt buf 0 == 0x00 && byteAt buf 1 == 0x00 &&
     byteAt buf 2 == 0x01 && byteAt buf 3 == 0x00)

def Dwg (buf : List Nat) : Bool :=
  decide (buf.length > 3) &&
    (byteAt buf 0 == 0x41 && byteAt buf 1 == 0x43 &&
     byteAt buf 2 == 0x31 && byteAt buf 3 == 0x30)

def Exr (buf : List Nat) : Bool :=
  decide (buf.length > 3) &&
    (byteAt buf 0 == 0x76 && byteAt buf 1 == 0x2F &&
     byteAt buf 2 == 0x31 && byteAt buf 3 == 0x01)

/-- `binary.BigEndian.Uint32(buf[0:4])`. -/
def be32 (buf : List Nat) : Nat :=
  byteAt buf 0 * 0x1000000 + byteAt buf 1 * 0x10000 +
    byteAt buf 2 * 0x100 + byteAt buf 3

/-- The 4 ASCII bytes of "ftyp". -/
def ftypBytes : List Nat := [0x66, 0x74, 0x79, 0x70]

/-- `isISOBMFF` from matchers/image.go: a 16-byte-or-longer buffer whose
bytes 4..7 spell "ftyp" and whose declared box length fits the buffer. -/
def isISOBMFF (buf : List Nat) : Bool :=
  if buf.length < 16 || ((buf.drop 4).take 4 != ftypBytes) then false
  else if be32 buf > buf.length then false
  else true

/-- The iterations of the `getFtyp` compatible-brands loop
(`for i := 16; i < ftypLength; i += 4`): the loop body runs once for
each multiple-of-4 offset in [16, ftypLength) and slices `buf[i:i+4]`
with no bounds check, so an iteration whose slice reaches past the end
of the buffer panics — modelled by `none`, which kills the whole
classification.  `steps` is the iteration count
`(ftypLength - 16 + 3) / 4` computed by `getFtypCompatible`. -/
def compatBrandsLoop (buf : List Nat) : Nat → Nat → Option (List (List Nat))
  | _, 0 => some []
  | i, steps + 1 =>
    if i + 4 ≤ buf.length then
      (compatBrandsLoop buf (i + 4) steps).map
        (fun bs => (buf.drop i).take 4 :: bs)
    else none

/-- `getFtyp`'s majorBrand component: `buf[8:12]`, or the empty brand for
buffers shorter than 17 bytes. -/
def getFtypMajor (buf : List Nat) : List Nat :=
  if buf.length < 17 then [] else (buf.drop 8).take 4

/-- `getFtyp`'s compatibleBrands component; `none` is the slice-bounds
panic of the brands loop. -/
def getFtypCompatible (buf : List Nat) : Option (List (List Nat)) :=
  if buf.length < 17 then some [[]]
  else compatBrandsLoop buf 16 ((be32 buf - 16 + 3) / 4)

def heicBytes : List Nat := [0x68, 0x65, 0x69, 0x63]
def mif1Bytes : List Nat := [0x6D, 0x69, 0x66, 0x31]
def msf1Bytes : List Nat := [0x6D, 0x73, 0x66, 0x31]
def avifBytes : List Nat := [0x61, 0x76, 0x69, 0x66]
def avisBytes : List Nat := [0x61, 0x76, 0x69, 0x73]

/-- `Heif` calls `getFtyp` before any brand test, so the brands-loop
panic fires whatever the major brand is. -/
def Heif (buf : List Nat) : Option Bool :=
  if !isISOBMFF buf then some false
  else
    (getFtypCompatible buf).map (fun compatibleBrands =>
      let major := getFtypMajor buf
      if major == heicBytes then true
      else if major == mif1Bytes || major == msf1Bytes then
        compatibleBrands.any (fun b => b == heicBytes)
      else false)

def Avif (buf : List Nat) : Option Bool :=
  if !isISOBMFF buf then some false
  else
    (getFtypCompatible buf).map (fun compatibleBrands =>
      let major := getFtypMajor buf
      if major == avifBytes || major == avisBytes then true
      else compatibleBrands.any (fun b => b == avifBytes || b == avisBytes))

/-- `filetype.IsImage buf`: Go iterates the image matchers in
unspecified map order and returns at the first acceptance; a reached
`getFtyp` panic (the `none` of `Heif`/`Avif`) kills the process.
Evaluating `Heif`/`Avif` eagerly fixes one admissible order: whenever
the panic can fire and no other matcher accepts the buffer — the case
on every concrete input of this development — Go deterministically
crashes, and when another matcher accepts, Go's outcome depends on the
map order and this model conservatively keeps the crash. -/
def IsImage (buf : List Nat) : Option Bool :=
  match Heif buf, Avif buf with
  | some h, some a =>
    some (Jpeg buf || Jpeg2000 buf || Png buf || Gif buf || Webp buf ||
      CR2 buf || Tiff buf || Bmp buf || Jxr buf || Psd buf || Ico buf ||
      h || Dwg buf || Exr buf || a)
  | _, _ => none

/-! ### isImageFile (ziper_imager.go lines 134-157) -/

/-- The zero-initialised 261-byte buffer `make([]byte, 261)`. -/
def zeroBuf : List Nat := List.replicate 261 0

/-- The buffer after a successful `file.Read(buf)` on a regular file with
the given content: the first `min 261 (content.length)` bytes of the file
followed by the untouched zero fill.  (A single `Read` on a regular file
returns `min(len(buf), size)` bytes.) -/
def readBuffer (content : List Nat) : List Nat :=
  content.take 261 ++ List.replicate (261 - content.length) 0

/-- `isImageFile(path)` with the global `silence` flag made explicit.
`openOk` models whether `os.Open` succeeds and `readOk` whether the read
syscall succeeds; a read of an empty file yields `io.EOF`, so the read
step errors iff the open failed (nil file), the read failed, or the file
is empty.  Returns the classification result together with the error
messages written to the error stream; `none` is the `getFtyp` panic
propagating out of `filetype.IsImage` and crashing the process.  (The
`debug` branch prints diagnostics only and is not modelled.) -/
def isImageFileRun (silence : Bool) (path : String) (openOk readOk : Bool)
    (content : List Nat) : Option (Bool × List String) :=
  if !openOk && !silence then some (false, ["file open failed " ++ path])
  else
    let readFailed := !openOk || !readOk || content.isEmpty
    let buf := if !openOk || !readOk then zeroBuf else readBuffer content
    if readFailed && !silence then some (false, ["file read failed " ++ path])
    else (IsImage buf).map (fun b => (b, []))

/-- The non-panicking fragment of `isImageFileRun`, total so the walker
model can consume it.  On every input where the program does not panic
the two coincide (`isImageFile_agrees`); on a panicking input the real
program crashes instead of producing the `(false, [])` placeholder, a
case no walker-level claim exercises. -/
def isImageFile (silence : Bool) (path : String) (openOk readOk : Bool)
    (content : List Nat) : Bool × List String :=
  match isImageFileRun silence path openOk readOk content with
  | some r => r
  | none => (false, [])

/-- Modelled from the spec: classification "on the available prefix" of a
file shorter than the 261-byte window — the signature match applied to
the file's leading bytes themselves, with no zero padding.  The spec's
classifier is a pure boolean with no failure mode, so a window that
completes no signature simply does not match.  This is the spec-side
classifier that claim C3 compares against the code's classifier. -/
def specPrefixClassify (content : List Nat) : Bool :=
  (IsImage (content.take 261)).getD false

/-! ### The filesystem model and search (ziper_imager.go lines 103-132)

A directory tree as seen by `os.ReadDir` / `entry.Info`.  Regular files
carry their content plus flags for whether `os.Open` and the read
succeed; directories carry a flag for whether `os.ReadDir` on them
succeeds.  (`entry.Info` failures are not modelled: `os.ReadDir` already
stats each entry, so a separate `Info` failure has no separate trigger.) -/

mutual
inductive FsTree where
  | file (name : String) (content : List Nat) (openOk readOk : Bool)
  | dir (name : String) (listOk : Bool) (children : FsForest)
inductive FsForest where
  | nil
  | cons (t : FsTree) (ts : FsForest)
end

/-- `filepath.Join(location, name)`, modelled as separator concatenation
(path cleaning is not modelled). -/
def pathJoin (loc name : String) : String := loc ++ "/" ++ name

def FsForest.append : FsForest → FsForest → FsForest
  | .nil, ys => ys
  | .cons x xs, ys => .cons x (xs.append ys)

/-- What `search` writes where: discovered image paths (appended to the
global `imageFiles` and printed to the out stream) and error messages
written to the error stream. -/
structure SearchOut where
  found : List String
  errs : List String
deriving Repr, DecidableEq

/-! The sequential denotation of `search`: each entry of a listing is
processed in order, and a subdirectory's goroutine contributes its whole
sub-walk (the `sync.WaitGroup` makes `search` return only after all
spawned sub-walks finish).  Interleaving of the concurrent appends is
modelled separately by `raceRun` below. -/

mutual
/-- One loop iteration of `search` on a single directory entry: a file
is classified and, on success, appended; a subdirectory is walked (its
`os.ReadDir` failure reported regardless of `silence`). -/
def searchEntry (silence : Bool) (loc : String) : FsTree → SearchOut
  | .file name content openOk readOk =>
    let p := pathJoin loc name
    let r := isImageFile silence p openOk readOk content
    if r.1 then ⟨[p], r.2⟩ else ⟨[], r.2⟩
  | .dir name listOk children =>
    if listOk then searchForest silence (pathJoin loc name) children
    else ⟨[], ["readdir failed " ++ pathJoin loc name]⟩

def searchForest (silence : Bool) (loc : String) : FsForest → SearchOut
  | .nil => ⟨[], []⟩
  | .cons c rest =>
    let r := searchEntry silence loc c
    let rs := searchForest silence loc rest
    ⟨r.found ++ rs.found, r.errs ++ rs.errs⟩
end

/-- `search(location)`: `os.ReadDir` then the entry loop; a listing
failure is reported (regardless of `silence`) and the call returns. -/
def searchDir (silence : Bool) (loc : String) (listOk : Bool)
    (children : FsForest) : SearchOut :=
  if listOk then searchForest silence loc children
  else ⟨[], ["readdir failed " ++ loc]⟩

/-! ### The racy shared append (ziper_imager.go line 127)

`imageFiles = append(imageFiles, fullPath)` is executed by every
directory's goroutine on the one global slice with no synchronisation.
A non-atomic append is two steps: read the current slice, then write
back the extended slice.  `raceRun` runs a set of walker tasks (each a
list of paths it will append) under an explicit schedule of task ids;
each append by a task consumes two scheduled steps. -/

structure TaskState where
  pending : List String
  snap : Option (List String)
deriving Repr, DecidableEq

structure RaceState where
  shared : List String
  tasks : List TaskState
deriving Repr, DecidableEq

/-- One scheduler step: run task `i` for one step.  A task whose next
append has not started reads the shared slice into its snapshot; a task
holding a snapshot writes back `snapshot ++ [path]`, losing any append
that landed in between. -/
def raceStep (st : RaceState) (i : Nat) : RaceState :=
  match st.tasks.get? i with
  | none => st
  | some t =>
    match t.pending, t.snap with
    | [], _ => st
    | p :: rest, none =>
      { st with tasks := st.tasks.set i ⟨p :: rest, some st.shared⟩ }
    | p :: rest, some old =>
      { shared := old ++ [p], tasks := st.tasks.set i ⟨rest, none⟩ }

/-- The contents of the global `imageFiles` after running the given
tasks under the given schedule, starting from the empty slice. -/
def raceRun (tasks : List (List String)) (sched : List Nat) : List String :=
  (sched.foldl raceStep ⟨[], tasks.map (fun l => ⟨l, none⟩)⟩).shared

/-- The image paths appended by the goroutine walking one directory: the
positively classified regular files directly in it (subdirectories are
handled by their own goroutines). -/
def directImages (silence : Bool) (loc : String) : FsForest → List String
  | .nil => []
  | .cons (.file name content openOk readOk) rest =>
    let p := pathJoin loc name
    (if (isImageFile silence p openOk readOk content).1 then [p] else []) ++
      directImages silence loc rest
  | .cons (.dir _ _ _) rest => directImages silence loc rest

/-- The per-goroutine append lists of the sub-walks spawned below a
directory: one task per transitively reached subdirectory whose listing
succeeds, holding the image paths directly in it. -/
def forestTasks (silence : Bool) (loc : String) : FsForest → List (List String)
  | .nil => []
  | .cons (.file _ _ _ _) rest => forestTasks silence loc rest
  | .cons (.dir name listOk cs) rest =>
    (if listOk then
      directImages silence (pathJoin loc name) cs ::
        forestTasks silence (pathJoin loc name) cs
     else []) ++ forestTasks silence loc rest

/-- The per-goroutine append lists of a walk of one directory: one task
for the directory itself followed by one for every transitively reached
subdirectory. -/
def dirTasks (silence : Bool) (loc : String) (listOk : Bool)
    (children : FsForest) : List (List String) :=
  if listOk then directImages silence loc children :: forestTasks silence loc children
  else []

/-! ### The archive builder (ziper_imager.go lines 159-203)

The builder re-opens each path, so its view of the filesystem is a map
from path strings to file objects.  A zip entry is modelled as its
header fields plus the bytes streamed into it by `io.Copy`; the on-disk
deflate encoding and the central directory are the `archive/zip`
container's concern, whose per-entry round-trip (decompressing a written
entry yields the bytes that were copied in) is the container format's
contract, so extraction is reading the entry's bytes back. -/

/-- A file as the archive builder sees it: `openOk` for `os.Open`,
`statOk` for `fileToZip.Stat()`, `copyOk` for the `io.Copy` read side,
`modTime` the modification time `zip.FileInfoHeader` copies out of the
`FileInfo` (seconds, any fixed unit). -/
structure FileObj where
  content : List Nat
  openOk : Bool
  statOk : Bool
  copyOk : Bool
  modTime : Nat
deriving Repr, DecidableEq

/-- One finalized entry of the produced archive. `method = 8` is
`zip.Deflate`. -/
structure ZipEntry where
  name : String
  modTime : Nat
  size : Nat
  method : Nat
  data : List Nat
deriving Repr, DecidableEq

/-- Reading one entry back out of the archive (decompression): the
container's round-trip contract returns the bytes that were copied in. -/
def unzipEntry (e : ZipEntry) : List Nat := e.data

/-- `addToZip(imgPath, zipWriter)`: open, stat, build the header from
the file's metadata (`zip.FileInfoHeader`), overwrite `Name` with the
discovered path, mark `Deflate`, then stream the bytes.  The archive is
threaded as the list of entries written so far; a failure returns the
error (`run` then discards the whole archive, so the partially written
entry is not modelled). -/
def addToZip (fs : String → Option FileObj) (imgPath : String)
    (ar : List ZipEntry) : Except String (List ZipEntry) :=
  match fs imgPath with
  | none => .error ("open failed " ++ imgPath)
  | some f =>
    if !f.openOk then .error ("open failed " ++ imgPath)
    else if !f.statOk then .error ("stat failed " ++ imgPath)
    else if !f.copyOk then .error ("copy failed " ++ imgPath)
    else .ok (ar ++ [{ name := imgPath, modTime := f.modTime,
                       size := f.content.length, method := 8,
                       data := f.content }])

/-- The `for _, img := range imageFiles` loop of `zipImages`: stop at
the first `addToZip` error. -/
def zipImagesGo (fs : String → Option FileObj) :
    List String → List ZipEntry → Except String (List ZipEntry)
  | [], ar => .ok ar
  | p :: rest, ar =>
    match addToZip fs p ar with
    | .error e => .error e
    | .ok ar' => zipImagesGo fs rest ar'

/-- `zipImages(imageFiles, output)`: create the container (creation of
the output file itself is modelled as succeeding) and add every path in
order. -/
def zipImages (fs : String → Option FileObj) (imageFiles : List String) :
    Except String (List ZipEntry) :=
  zipImagesGo fs imageFiles []

/-- The entry `addToZip` writes for a path whose file object is intact. -/
def mkZipEntry (fs : String → Option FileObj) (p : String) : ZipEntry :=
  match fs p with
  | some f => { name := p, modTime := f.modTime, size := f.content.length,
                method := 8, data := f.content }
  | none => { name := p, modTime := 0, size := 0, method := 8, data := [] }

/-- The path's file can be opened, stat'd and fully copied. -/
def goodFile (fs : String → Option FileObj) (p : String) : Prop :=
  ∃ f, fs p = some f ∧ f.openOk = true ∧ f.statOk = true ∧ f.copyOk = true

/-- The path's file cannot be opened, stat'd, or fully copied. -/
def badFile (fs : String → Option FileObj) (p : String) : Prop :=
  ∀ f, fs p = some f →
    f.openOk = false ∨ f.statOk = false ∨ f.copyOk = false

/-- The archive entries bearing a given name. -/
def entriesNamed (ar : List ZipEntry) (p : String) : List ZipEntry :=
  ar.filter (fun e => e.name == p)

/-! ### The delivery collaborators (ziper_imager.go lines 205-299)

The HTTP transport is external; a boolean `transportOk` stands for the
request/response exchange succeeding with status 200.  Both functions
check `chatID == ""` first and fail without touching the network. -/

/-- `sendMessageToTelegram(message, token, chatID)`. -/
def sendMessageToTelegram (_message _token chatID : String)
    (transportOk : Bool) : Except String Unit :=
  if chatID == "" then .error "chat_id is empty"
  else if transportOk then .ok () else .error "failed to send message"

/-- `sendFileToTelegram(filePath, message, token, chatID)`. -/
def sendFileToTelegram (_filePath _message _token chatID : String)
    (transportOk : Bool) : Except String Unit :=
  if chatID == "" then .error "chat_id is empty"
  else if transportOk then .ok () else .error "failed to send file"

/-! ### run (ziper_imager.go lines 55-101) -/

/-- The flag values (`setFlags`) after parsing. -/
structure Config where
  location : String
  outputZip : String
  telegramToken : String
  telegramChatID : String
  message : String
  debug : Bool
  silence : Bool
deriving Repr, DecidableEq

/-- The outcomes of the external operations `run` performs, fixed up
front: whether `os.Stat(location)` succeeds, the root listing and tree,
the builder's view of the files, whether `os.Stat(outputZip)` succeeds
and the size it reports, and the two HTTP transports. -/
structure RunEnv where
  rootOk : Bool
  rootListOk : Bool
  rootEntries : FsForest
  zipFs : String → Option FileObj
  zipStatOk : Bool
  zipSize : Nat
  msgTransportOk : Bool
  fileTransportOk : Bool

/-- What `run` did: its exit code, the walker's frozen `imageFiles`, the
archive it finalized (`none` when not built or failed), and whether the
two Telegram collaborators were invoked. -/
structure RunOut where
  exit : Nat
  found : List String
  archive : Option (List ZipEntry)
  sentMessage : Bool
  sentFile : Bool
deriving Repr, DecidableEq

/-- The frozen `imageFiles` (ResultCollection) after `search(location)`
returns, under the sequential denotation of the walk. -/
def walkFound (cfg : Config) (env : RunEnv) : List String :=
  (searchDir cfg.silence cfg.location env.rootListOk env.rootEntries).found

/-- `run(args, outStream, errStream)` after flag parsing: stat the root,
walk, and if any image was found zip, size-check, send the message, and
conditionally send the file. -/
def run (cfg : Config) (env : RunEnv) : RunOut :=
  if !env.rootOk then ⟨1, [], none, false, false⟩
  else
    let imageFiles := walkFound cfg env
    if imageFiles.length > 0 then
      match zipImages env.zipFs imageFiles with
      | .error _ => ⟨1, imageFiles, none, false, false⟩
      | .ok ar =>
        if !env.zipStatOk then ⟨1, imageFiles, some ar, false, false⟩
        else if env.zipSize > 20 * 1024 * 1024 then
          ⟨1, imageFiles, some ar, false, false⟩
        else
          match sendMessageToTelegram cfg.message cfg.telegramToken
              cfg.telegramChatID env.msgTransportOk with
          | .error _ => ⟨1, imageFiles, some ar, true, false⟩
          | .ok _ =>
            if cfg.telegramToken != "" && cfg.telegramChatID != "" &&
                cfg.message != "" then
              match sendFileToTelegram cfg.outputZip cfg.message
                  cfg.telegramToken cfg.telegramChatID env.fileTransportOk with
              | .error _ => ⟨1, imageFiles, some ar, true, true⟩
              | .ok _ => ⟨0, imageFiles, some ar, true, true⟩
            else ⟨0, imageFiles, some ar, true, false⟩
    else ⟨0, imageFiles, none, false, false⟩

/-! ### Concrete fixtures

The tree of spec §8 scenario 5 (`/a.jpg` valid JPEG bytes, `/sub/b.txt`
plain text, `/sub/c.png` valid PNG bytes) under root `/t`, and the
builder's view of the same files. -/

def jpegSample : List Nat :=
  [0xFF, 0xD8, 0xFF, 0xE0, 0x00, 0x10, 0x4A, 0x46, 0x49, 0x46]

def pngSample : List Nat := [0x89, 0x50, 0x4E, 0x47, 0x0D, 0x0A, 0x1A, 0x0A]

def textSample : List Nat := [0x68, 0x65, 0x6C, 0x6C, 0x6F]

def sampleForest : FsForest :=
  .cons (.file "a.jpg" jpegSample true true)
    (.cons (.dir "sub" true
      (.cons (.file "b.txt" textSample true true)
        (.cons (.file "c.png" pngSample true true) .nil))) .nil)

def sampleFs : String → Option FileObj := fun p =>
  if p == "/t/a.jpg" then some ⟨jpegSample, true, true, true, 111⟩
  else if p == "/t/sub/c.png" then some ⟨pngSample, true, true, true, 222⟩
  else none

/-- Same view except `/t/sub/c.png` can no longer be opened. -/
def sampleFsBad : String → Option FileObj := fun p =>
  if p == "/t/a.jpg" then some ⟨jpegSample, true, true, true, 111⟩
  else if p == "/t/sub/c.png" then some ⟨pngSample, false, true, true, 222⟩
  else none

/-- A root with two subdirectories, one image file in each: each
subdirectory's goroutine performs one append to the shared slice. -/
def raceForest : FsForest :=
  .cons (.dir "s1" true (.cons (.file "a.jpg" jpegSample true true) .nil))
    (.cons (.dir "s2" true (.cons (.file "b.jpg" jpegSample true true) .nil)) .nil)

def cfgW : Config := ⟨"/t", "images.zip", "tok", "chat", "msg", false, false⟩

def cfgNoChat : Config := ⟨"/t", "images.zip", "tok", "", "msg", false, false⟩

def envW : RunEnv := ⟨true, true, sampleForest, sampleFs, true, 1024, true, true⟩

def envBadRoot : RunEnv :=
  ⟨false, true, sampleForest, sampleFs, true, 1024, true, true⟩

def envBadZip : RunEnv :=
  ⟨true, true, sampleForest, sampleFsBad, true, 1024, true, true⟩

def envOverSize : RunEnv :=
  ⟨true, true, sampleForest, sampleFs, true, 20 * 1024 * 1024 + 1, true, true⟩

/-! ### Helper lemmas -/

theorem IsImage_zeroBuf : IsImage zeroBuf = some false := by decide

theorem readBuffer_nil : readBuffer [] = zeroBuf := by decide

theorem readBuffer_length (content : List Nat) :
    (readBuffer content).length = 261 := by
  unfold readBuffer
  simp
  omega

/-- Wherever the program does not panic, the total walker-facing
classifier returns exactly what the faithful classifier computes. -/
theorem isImageFile_agrees (silence : Bool) (path : String)
    (openOk readOk : Bool) (content : List Nat)
    (h : isImageFileRun silence path openOk readOk content ≠ none) :
    isImageFileRun silence path openOk readOk content =
      some (isImageFile silence path openOk readOk content) := by
  unfold isImageFile
  cases hr : isImageFileRun silence path openOk readOk content with
  | none => exact absurd hr h
  | some r => rfl

/-- A failing classification never reaches a panicking buffer: with
`silence` off it returns early, with `silence` on it classifies the
untouched zero buffer, which carries no ftyp box. -/
theorem isImageFileRun_fail_some (silence : Bool) (path : String)
    (openOk readOk : Bool) (content : List Nat)
    (h : openOk = false ∨ readOk = false ∨ content = []) :
    isImageFileRun silence path openOk readOk content =
      some (isImageFile silence path openOk readOk content) := by
  apply isImageFile_agrees
  cases silence <;> cases openOk <;> cases readOk <;>
    rcases h with h | h | h <;>
    simp_all [isImageFileRun, IsImage_zeroBuf, readBuffer_nil]

/-- Every failing classification (`os.Open` error, read error, or empty
file hitting `io.EOF`) yields `false`, whether or not errors are
silenced: with `silence` off the function returns early, with `silence`
on it classifies the untouched zero buffer, which no matcher accepts. -/
theorem isImageFile_fail_false (silence : Bool) (path : String)
    (openOk readOk : Bool) (content : List Nat)
    (h : openOk = false ∨ readOk = false ∨ content = []) :
    (isImageFile silence path openOk readOk content).1 = false := by
  cases silence <;> cases openOk <;> cases readOk <;>
    rcases h with h | h | h <;>
    simp_all [isImageFile, isImageFileRun, IsImage_zeroBuf, readBuffer_nil]

/-- The brands loop panics iff some iteration's `buf[i:i+4]` slice
reaches past the end of the buffer. -/
theorem compatBrandsLoop_eq_none (buf : List Nat) :
    ∀ steps i, compatBrandsLoop buf i steps = none ↔
      ∃ k, k < steps ∧ buf.length < i + 4 * k + 4
  | 0, i => by simp [compatBrandsLoop]
  | steps + 1, i => by
    have ih := compatBrandsLoop_eq_none buf steps (i + 4)
    unfold compatBrandsLoop
    by_cases hle : i + 4 ≤ buf.length
    · rw [if_pos hle]
      rw [Option.map_eq_none']
      rw [ih]
      constructor
      · rintro ⟨k, hk, hbig⟩
        exact ⟨k + 1, by omega, by omega⟩
      · rintro ⟨k, hk, hbig⟩
        match k with
        | 0 => omega
        | k' + 1 => exact ⟨k', by omega, by omega⟩
    · rw [if_neg hle]
      simp only [true_iff]
      exact ⟨0, by omega, by omega⟩

/-- A buffer accepted by `isISOBMFF` declares a box length that fits it. -/
theorem isISOBMFF_le (buf : List Nat) (h : isISOBMFF buf = true) :
    be32 buf ≤ buf.length := by
  unfold isISOBMFF at h
  split at h
  · exact absurd h (by simp)
  · split at h
    · exact absurd h (by simp)
    · omega

theorem Heif_eq_none_iff (buf : List Nat) :
    Heif buf = none ↔
      isISOBMFF buf = true ∧ getFtypCompatible buf = none := by
  unfold Heif
  cases hiso : isISOBMFF buf <;>
    simp [hiso, Option.map_eq_none']

theorem Avif_eq_none_iff (buf : List Nat) :
    Avif buf = none ↔
      isISOBMFF buf = true ∧ getFtypCompatible buf = none := by
  unfold Avif
  cases hiso : isISOBMFF buf <;>
    simp [hiso, Option.map_eq_none']

/-- For the 261-byte read buffer, `filetype.IsImage` panics exactly when
the buffer passes the ISOBMFF test and its big-endian box length is 261:
then the brands loop's last iteration is `buf[260:264]`, past the
buffer's end. -/
theorem IsImage_eq_none_iff (buf : List Nat) (hlen : buf.length = 261) :
    IsImage buf = none ↔ isISOBMFF buf = true ∧ be32 buf = 261 := by
  have hiff : getFtypCompatible buf = none ↔ 248 ≤ be32 buf - 13 := by
    unfold getFtypCompatible
    rw [if_neg (by omega)]
    rw [compatBrandsLoop_eq_none]
    constructor
    · rintro ⟨k, hk, hbig⟩
      omega
    · intro hge
      exact ⟨61, by omega, by omega⟩
  have hmain : (isISOBMFF buf = true ∧ getFtypCompatible buf = none) ↔
      (isISOBMFF buf = true ∧ be32 buf = 261) := by
    constructor
    · rintro ⟨hiso, hcomp⟩
      have hle := isISOBMFF_le buf hiso
      exact ⟨hiso, by rw [hiff] at hcomp; omega⟩
    · rintro ⟨hiso, hbe⟩
      exact ⟨hiso, by rw [hiff]; omega⟩
  rw [← hmain]
  unfold IsImage
  cases hH : Heif buf with
  | none =>
    simp only [true_iff]
    exact (Heif_eq_none_iff buf).mp hH
  | some h =>
    cases hA : Avif buf with
    | none =>
      simp only [true_iff]
      exact (Avif_eq_none_iff buf).mp hA
    | some a =>
      simp only [iff_false_intro]
      constructor
      · intro hfalse
        exact absurd hfalse (by simp)
      · rintro ⟨hiso, hcomp⟩
        have := (Heif_eq_none_iff buf).mpr ⟨hiso, hcomp⟩
        rw [hH] at this
        exact absurd this (by simp)

theorem mkZipEntry_name (fs : String → Option FileObj) (p : String) :
    (mkZipEntry fs p).name = p := by
  unfold mkZipEntry
  cases fs p <;> rfl

theorem addToZip_good (fs : String → Option FileObj) (p : String)
    (ar : List ZipEntry) (h : goodFile fs p) :
    addToZip fs p ar = .ok (ar ++ [mkZipEntry fs p]) := by
  obtain ⟨f, hfs, ho, hs, hc⟩ := h
  simp [addToZip, mkZipEntry, hfs, ho, hs, hc]

theorem addToZip_bad (fs : String → Option FileObj) (p : String)
    (h : badFile fs p) : ∃ e, ∀ ar, addToZip fs p ar = .error e := by
  cases hfs : fs p with
  | none => exact ⟨"open failed " ++ p, fun ar => by simp [addToZip, hfs]⟩
  | some f =>
    cases ho : f.openOk with
    | false => exact ⟨"open failed " ++ p, fun ar => by simp [addToZip, hfs, ho]⟩
    | true =>
      cases hs : f.statOk with
      | false => exact ⟨"stat failed " ++ p, fun ar => by simp [addToZip, hfs, ho, hs]⟩
      | true =>
        cases hc : f.copyOk with
        | false =>
          exact ⟨"copy failed " ++ p, fun ar => by simp [addToZip, hfs, ho, hs, hc]⟩
        | true =>
          rcases h f hfs with h1 | h1 | h1 <;> simp_all

/-- Processing a prefix of intact files accumulates exactly their
entries, in order. -/
theorem zipImagesGo_good_front (fs : String → Option FileObj)
    (pre rest : List String) :
    ∀ ar, (∀ p ∈ pre, goodFile fs p) →
      zipImagesGo fs (pre ++ rest) ar =
        zipImagesGo fs rest (ar ++ pre.map (mkZipEntry fs)) := by
  induction pre with
  | nil => intro ar _; simp
  | cons p ps ih =>
    intro ar h
    have hp : goodFile fs p := h p (by simp)
    rw [List.cons_append]
    simp only [zipImagesGo, addToZip_good fs p ar hp]
    rw [ih (ar ++ [mkZipEntry fs p]) (fun q hq => h q (by simp [hq]))]
    simp

theorem zipImages_eq_map (fs : String → Option FileObj) (L : List String)
    (h : ∀ p ∈ L, goodFile fs p) :
    zipImages fs L = .ok (L.map (mkZipEntry fs)) := by
  have := zipImagesGo_good_front fs L [] [] h
  simpa [zipImages, zipImagesGo] using this

/-- `searchForest` distributes over forest concatenation: each entry's
contribution is independent of its siblings. -/
theorem searchForest_append (silence : Bool) (loc : String) :
    (xs : FsForest) → (ys : FsForest) →
    searchForest silence loc (xs.append ys) =
      ⟨(searchForest silence loc xs).found ++ (searchForest silence loc ys).found,
       (searchForest silence loc xs).errs ++ (searchForest silence loc ys).errs⟩
  | .nil, ys => by simp [FsForest.append, searchForest]
  | .cons c rest, ys => by
    have ih := searchForest_append silence loc rest ys
    simp [FsForest.append, searchForest, ih]

/-- Classification failures with `silence` off are reported on the
error stream. -/
theorem isImageFile_fail_reported (path : String) (openOk readOk : Bool)
    (content : List Nat)
    (h : openOk = false ∨ readOk = false ∨ content = []) :
    (isImageFile false path openOk readOk content).2 ≠ [] := by
  cases openOk <;> cases readOk <;> rcases h with h | h | h <;>
    simp_all [isImageFile, isImageFileRun]

/-- The entries of a built archive named `p` are the images of the
occurrences of `p` in the path list. -/
theorem entriesNamed_map (fs : String → Option FileObj) (p : String) :
    (L : List String) →
    entriesNamed (L.map (mkZipEntry fs)) p =
      (L.filter (fun q => q == p)).map (mkZipEntry fs)
  | [] => rfl
  | q :: qs => by
    have ih := entriesNamed_map fs p qs
    simp only [List.map_cons, entriesNamed, List.filter_cons,
      mkZipEntry_name] at *
    cases hq : (q == p) <;> simp [hq, ih]

theorem map_name_map_mk (fs : String → Option FileObj) :
    (L : List String) →
    (L.map (mkZipEntry fs)).map ZipEntry.name = L
  | [] => rfl
  | q :: qs => by
    have ih := map_name_map_mk fs qs
    simp [mkZipEntry_name, ih]

theorem sampleFs_good : ∀ p ∈ walkFound cfgW envW, goodFile sampleFs p := by
  intro p hp
  have hw : walkFound cfgW envW = ["/t/a.jpg", "/t/sub/c.png"] := by decide
  rw [hw] at hp
  simp only [List.mem_cons, List.not_mem_nil, or_false] at hp
  rcases hp with rfl | rfl
  · exact ⟨⟨jpegSample, true, true, true, 111⟩, rfl, rfl, rfl, rfl⟩
  · exact ⟨⟨pngSample, true, true, true, 222⟩, rfl, rfl, rfl, rfl⟩

/-! ### Claims -/

/-- C1: the result set produced by the walker is NOT independent of task
scheduling: `imageFiles = append(imageFiles, fullPath)` (line 127) is
executed by concurrently running goroutines with no synchronisation, so
a non-atomic append (read the slice, then write it back extended) can
overwrite a concurrent append.  On the tree `/p/s1/a.jpg`, `/p/s2/b.jpg`
(both valid JPEGs) the serialized schedule [1,1,2,2] yields both image
files — the set the claim demands, and what the sequential denotation
`searchDir` computes — while the interleaved schedule [1,2,1,2] of the
same two walker tasks loses `/p/s1/a.jpg`, so the result set depends on
task scheduling and misses a reachable image file. -/
theorem race_schedule_dependent :
    (searchDir false "/p" true raceForest).found =
      ["/p/s1/a.jpg", "/p/s2/b.jpg"] ∧
    raceRun (dirTasks false "/p" true raceForest) [1, 1, 2, 2] =
      ["/p/s1/a.jpg", "/p/s2/b.jpg"] ∧
    raceRun (dirTasks false "/p" true raceForest) [1, 2, 1, 2] =
      ["/p/s2/b.jpg"] ∧
    raceRun (dirTasks false "/p" true raceForest) [1, 2, 1, 2] ≠
      raceRun (dirTasks false "/p" true raceForest) [1, 1, 2, 2] := by
  decide

/-- C4: the shared result collection is NOT safe under concurrent walker
tasks: the unsynchronised `append` admits lost updates.  On the tree
`/p/s1/a.jpg`, `/p/s2/b.jpg`, the path `/p/s1/a.jpg` is positively
classified and appended by its directory's goroutine, yet after the
interleaved schedule [1,2,1,2] it is absent from the final shared
slice: the insert is not atomic. -/
theorem append_lost_update :
    "/p/s1/a.jpg" ∈ (searchDir false "/p" true raceForest).found ∧
    (isImageFile false "/p/s1/a.jpg" true true jpegSample).1 = true ∧
    "/p/s1/a.jpg" ∉ raceRun (dirTasks false "/p" true raceForest) [1, 2, 1, 2] := by
  decide

/-- C3 counterexample: the classifier is NOT "true iff the available
prefix matches a known image signature", for two reasons, both caused
by classifying the zero-initialised 261-byte buffer instead of the
available prefix.  First, the readable 3-byte file `00 00 01` matches
no signature on its prefix (`specPrefixClassify` rejects it), yet the
classifier accepts it — the padding completes the 4-byte ICO signature
`00 00 01 00` — and the file enters the result set.  Second, the
readable 8-byte file `00 00 01 05 66 74 79 70` (an ftyp box declaring
length 261, the padded buffer's exact size) does not return false at
all: `getFtyp`'s unguarded `buf[260:264]` slice panics and the process
crashes (`none`). -/
theorem isImageFile_prefix_counterexample :
    isImageFileRun false "/t/v.dat" true true [0, 0, 1] = some (true, []) ∧
    specPrefixClassify [0, 0, 1] = false ∧
    (searchEntry false "/t" (.file "v.dat" [0, 0, 1] true true)).found =
      ["/t/v.dat"] ∧
    isImageFileRun false "/t/w.dat" true true
      [0, 0, 1, 5, 0x66, 0x74, 0x79, 0x70] = none := by
  decide

/-- C3 (amended): on a readable nonempty file the classifier matches
the zero-padded 261-byte read buffer, not the available prefix: when
the matcher pipeline completes with verdict `b` the classifier returns
exactly `b` (so padding zeros take part in the match and can complete a
signature for short files), and the pipeline panics — crashing the
process instead of classifying — precisely when the padded buffer
passes the ISOBMFF test with a declared ftyp box length of exactly 261;
every zero-byte file, unopenable file, or failed read classifies false
without panicking, in both silence modes. -/
theorem isImageFile_padded_classification (silence : Bool) (path : String)
    (openOk readOk : Bool) (content : List Nat) :
    (∀ b, openOk = true → readOk = true → content ≠ [] →
      IsImage (readBuffer content) = some b →
      isImageFileRun silence path openOk readOk content = some (b, []) ∧
      (isImageFile silence path openOk readOk content).1 = b) ∧
    (openOk = true → readOk = true → content ≠ [] →
      IsImage (readBuffer content) = none →
      isImageFileRun silence path openOk readOk content = none) ∧
    (IsImage (readBuffer content) = none ↔
      isISOBMFF (readBuffer content) = true ∧
        be32 (readBuffer content) = 261) ∧
    (openOk = false ∨ readOk = false ∨ content = [] →
      isImageFileRun silence path openOk readOk content =
        some (isImageFile silence path openOk readOk content) ∧
      (isImageFile silence path openOk readOk content).1 = false) := by
  refine ⟨?_, ?_, IsImage_eq_none_iff _ (readBuffer_length content), ?_⟩
  · intro b ho hr hc him
    subst ho; subst hr
    obtain ⟨a, as, rfl⟩ : ∃ a as, content = a :: as := by
      cases content with
      | nil => exact absurd rfl hc
      | cons a as => exact ⟨a, as, rfl⟩
    cases silence <;> simp [isImageFile, isImageFileRun, him]
  · intro ho hr hc him
    subst ho; subst hr
    obtain ⟨a, as, rfl⟩ : ∃ a as, content = a :: as := by
      cases content with
      | nil => exact absurd rfl hc
      | cons a as => exact ⟨a, as, rfl⟩
    cases silence <;> simp [isImageFileRun, him]
  · intro hfail
    exact ⟨isImageFileRun_fail_some silence path openOk readOk content hfail,
      isImageFile_fail_false silence path openOk readOk content hfail⟩

theorem isImageFile_padded_classification_witness :
    isImageFileRun false "/t/a.jpg" true true jpegSample =
      some (true, []) ∧
    (isImageFile false "/t/a.jpg" true true jpegSample).1 = true :=
  (isImageFile_padded_classification false "/t/a.jpg" true true
    jpegSample).1 true rfl rfl (by decide) (by decide)

/-- C5 counterexample: a per-entry failure is NOT always reported on the
error channel: with the `silence` flag on, an entry whose `os.Open`
fails produces no error output at all, while the same entry with
`silence` off is reported — the failure is real but suppressed. -/
theorem silence_suppresses_report_counterexample :
    (searchEntry true "/t" (.file "x.dat" [1, 2, 3] false true)) = ⟨[], []⟩ ∧
    (searchEntry false "/t" (.file "x.dat" [1, 2, 3] false true)) =
      ⟨[], ["file open failed /t/x.dat"]⟩ := by
  decide

/-- C5 (amended): every per-entry failure causes only that entry to be
skipped with the file treated as non-matching in both the silence-on
and silence-off modes, and never aborts sibling entries' processing or
ancestor traversal; a file-open or read failure is reported on the
error channel in the non-suppressible mode (silence off), while a
directory-listing failure is reported in both modes; sibling
contributions compose independently around the failing entry. -/
theorem per_entry_failure_locality (silence : Bool) (loc name : String)
    (content : List Nat) (openOk readOk : Bool) (cs pre post : FsForest)
    (b : FsTree) (hfail : openOk = false ∨ readOk = false ∨ content = []) :
    (searchEntry silence loc (.file name content openOk readOk)).found = [] ∧
    (searchEntry false loc (.file name content openOk readOk)).errs ≠ [] ∧
    (searchEntry silence loc (.dir name false cs)).found = [] ∧
    (searchEntry silence loc (.dir name false cs)).errs =
      ["readdir failed " ++ pathJoin loc name] ∧
    searchForest silence loc (pre.append (.cons b post)) =
      ⟨(searchForest silence loc pre).found ++
         (searchEntry silence loc b).found ++
         (searchForest silence loc post).found,
       (searchForest silence loc pre).errs ++
         (searchEntry silence loc b).errs ++
         (searchForest silence loc post).errs⟩ := by
  refine ⟨?_, ?_, ?_, ?_, ?_⟩
  · have h1 := isImageFile_fail_false silence (pathJoin loc name)
      openOk readOk content hfail
    simp [searchEntry, h1]
  · have h1 := isImageFile_fail_false false (pathJoin loc name)
      openOk readOk content hfail
    have h2 := isImageFile_fail_reported (pathJoin loc name)
      openOk readOk content hfail
    simp [searchEntry, h1]
    exact h2
  · simp [searchEntry]
  · simp [searchEntry]
  · rw [searchForest_append silence loc pre (.cons b post)]
    simp [searchForest, List.append_assoc]

theorem per_entry_failure_locality_witness :
    searchForest false "/t"
        (FsForest.append (.cons (.file "a.jpg" jpegSample true true) .nil)
          (.cons (.file "x.dat" [1, 2, 3] false true)
            (.cons (.file "c.png" pngSample true true) .nil))) =
      ⟨(searchForest false "/t"
          (.cons (.file "a.jpg" jpegSample true true) .nil)).found ++
        (searchEntry false "/t" (.file "x.dat" [1, 2, 3] false true)).found ++
        (searchForest false "/t"
          (.cons (.file "c.png" pngSample true true) .nil)).found,
       (searchForest false "/t"
          (.cons (.file "a.jpg" jpegSample true true) .nil)).errs ++
        (searchEntry false "/t" (.file "x.dat" [1, 2, 3] false true)).errs ++
        (searchForest false "/t"
          (.cons (.file "c.png" pngSample true true) .nil)).errs⟩ :=
  (per_entry_failure_locality false "/t" "x.dat" [1, 2, 3] false true .nil
    (.cons (.file "a.jpg" jpegSample true true) .nil)
    (.cons (.file "c.png" pngSample true true) .nil)
    (.file "x.dat" [1, 2, 3] false true) (Or.inl rfl)).2.2.2.2

/-- C2: archive round-trip — for a duplicate-free result set of intact
files, building succeeds, every path appears exactly once as an entry
of the produced archive, and extracting each such entry yields exactly
the original file's bytes. -/
theorem zip_roundtrip (fs : String → Option FileObj) (L : List String)
    (hgood : ∀ p ∈ L, goodFile fs p) (hnd : L.Nodup) :
    zipImages fs L = .ok (L.map (mkZipEntry fs)) ∧
    ∀ p ∈ L, (entriesNamed (L.map (mkZipEntry fs)) p).length = 1 ∧
      ∀ e ∈ entriesNamed (L.map (mkZipEntry fs)) p,
        unzipEntry e = (fs p).elim [] FileObj.content := by
  refine ⟨zipImages_eq_map fs L hgood, fun p hp => ⟨?_, ?_⟩⟩
  · rw [entriesNamed_map, List.length_map]
    calc (L.filter (fun q => q == p)).length
        = L.countP (fun q => q == p) := (List.countP_eq_length_filter _ _).symm
      _ = L.count p := rfl
      _ = 1 := List.count_eq_one_of_mem hnd hp
  · intro e he
    rw [entriesNamed_map] at he
    obtain ⟨q, hq, rfl⟩ := List.mem_map.mp he
    have hqmem : q ∈ L := (List.mem_filter.mp hq).1
    have hqp : q = p := eq_of_beq (List.mem_filter.mp hq).2
    subst hqp
    obtain ⟨f, hfs, -, -, -⟩ := hgood q hqmem
    simp [unzipEntry, mkZipEntry, hfs]

theorem zip_roundtrip_witness :
    (entriesNamed ((walkFound cfgW envW).map (mkZipEntry sampleFs))
      "/t/a.jpg").length = 1 :=
  ((zip_roundtrip sampleFs (walkFound cfgW envW) sampleFs_good
    (by decide)).2 "/t/a.jpg" (by decide)).1

/-- C6: if any single file in the path list cannot be opened, stat'd,
or fully copied, the whole archive build fails with that file's error —
the same error whatever entries follow, so no later entry is attempted —
the run terminates with exit status 1, and no archive is kept. -/
theorem zip_failfast_aborts_run (cfg : Config) (env : RunEnv)
    (pre : List String) (bad : String) (post : List String)
    (hL : walkFound cfg env = pre ++ bad :: post)
    (hroot : env.rootOk = true)
    (hpre : ∀ p ∈ pre, goodFile env.zipFs p)
    (hbad : badFile env.zipFs bad) :
    run cfg env = ⟨1, walkFound cfg env, none, false, false⟩ ∧
    ∃ e, ∀ post', zipImages env.zipFs (pre ++ bad :: post') = .error e := by
  obtain ⟨e, he⟩ := addToZip_bad env.zipFs bad hbad
  have hfail : ∀ post', zipImages env.zipFs (pre ++ bad :: post') = .error e := by
    intro post'
    unfold zipImages
    rw [zipImagesGo_good_front env.zipFs pre (bad :: post') [] hpre]
    simp only [zipImagesGo, List.nil_append]
    rw [he]
  have hlen : (walkFound cfg env).length > 0 := by
    rw [hL]; simp
  have hz : zipImages env.zipFs (walkFound cfg env) = .error e := by
    rw [hL]; exact hfail post
  refine ⟨?_, e, hfail⟩
  unfold run
  simp [hroot, hlen, hz]

theorem zip_failfast_aborts_run_witness :
    run cfgW envBadZip = ⟨1, walkFound cfgW envBadZip, none, false, false⟩ :=
  (zip_failfast_aborts_run cfgW envBadZip ["/t/a.jpg"] "/t/sub/c.png" []
    (by decide) rfl
    (by
      intro p hp
      simp only [List.mem_cons, List.not_mem_nil, or_false] at hp
      subst hp
      exact ⟨⟨jpegSample, true, true, true, 111⟩, rfl, rfl, rfl, rfl⟩)
    (by
      intro f hf
      have hval : envBadZip.zipFs "/t/sub/c.png" =
          some ⟨pngSample, false, true, true, 222⟩ := rfl
      rw [hval] at hf
      injection hf with h
      subst h
      left
      rfl)).1

/-- C7: when the produced archive's size exceeds the 20 MiB limit
(20*1024*1024 bytes, strictly), the run exits with status 1 and neither
the notification (`sendMessageToTelegram`) nor the upload
(`sendFileToTelegram`) collaborator is invoked. -/
theorem size_limit_blocks_delivery (cfg : Config) (env : RunEnv)
    (ar : List ZipEntry) (hroot : env.rootOk = true)
    (hlen : (walkFound cfg env).length > 0)
    (hzip : zipImages env.zipFs (walkFound cfg env) = .ok ar)
    (hstat : env.zipStatOk = true)
    (hsize : env.zipSize > 20 * 1024 * 1024) :
    run cfg env = ⟨1, walkFound cfg env, some ar, false, false⟩ := by
  unfold run
  simp [hroot, hlen, hzip, hstat, hsize]

theorem size_limit_blocks_delivery_witness :
    run cfgW envOverSize =
      ⟨1, walkFound cfgW envOverSize,
       some ((walkFound cfgW envOverSize).map (mkZipEntry sampleFs)),
       false, false⟩ :=
  size_limit_blocks_delivery cfgW envOverSize
    ((walkFound cfgW envOverSize).map (mkZipEntry sampleFs))
    rfl (by decide) (by rfl) rfl (by decide)

/-- C8: an invalid or inaccessible search root (`os.Stat(location)`
fails) is fatal: `run` returns 1 with no walking performed — the result
is the same whatever the tree holds, no path is discovered, and no
later stage runs. -/
theorem invalid_root_fatal (cfg : Config) (env : RunEnv)
    (h : env.rootOk = false) :
    run cfg env = ⟨1, [], none, false, false⟩ := by
  simp [run, h]

theorem invalid_root_fatal_witness :
    run cfgW envBadRoot = ⟨1, [], none, false, false⟩ :=
  invalid_root_fatal cfgW envBadRoot rfl

/-- C9: for a result collection of intact files the builder writes, in
the order given, exactly one entry per path — entry names equal the
discovered path strings, headers carry the file's modification time and
size drawn from its metadata and are marked for Deflate (method 8) —
and the archive `run` finalizes holds exactly the frozen walker
results, no more, no fewer. -/
theorem zip_entries_exact (cfg : Config) (env : RunEnv)
    (hroot : env.rootOk = true)
    (hlen : (walkFound cfg env).length > 0)
    (hgood : ∀ p ∈ walkFound cfg env, goodFile env.zipFs p) :
    zipImages env.zipFs (walkFound cfg env) =
      .ok ((walkFound cfg env).map (mkZipEntry env.zipFs)) ∧
    ((walkFound cfg env).map (mkZipEntry env.zipFs)).map ZipEntry.name =
      walkFound cfg env ∧
    (∀ p f, p ∈ walkFound cfg env → env.zipFs p = some f →
      mkZipEntry env.zipFs p =
        ⟨p, f.modTime, f.content.length, 8, f.content⟩) ∧
    (run cfg env).archive =
      some ((walkFound cfg env).map (mkZipEntry env.zipFs)) := by
  have hz := zipImages_eq_map env.zipFs (walkFound cfg env) hgood
  refine ⟨hz, map_name_map_mk env.zipFs (walkFound cfg env),
    fun p f _ hfs => by simp [mkZipEntry, hfs], ?_⟩
  unfold run
  simp only [hroot, Bool.not_true, Bool.false_eq_true, if_false, hlen,
    if_true, hz]
  repeat first | rfl | split

theorem zip_entries_exact_witness :
    ((walkFound cfgW envW).map (mkZipEntry sampleFs)).map ZipEntry.name =
      walkFound cfgW envW :=
  (zip_entries_exact cfgW envW rfl (by decide) sampleFs_good).2.1

/-- C10: whenever images were found, the archive was built and its size
passes the limit, `run` unconditionally attempts the notification
message; with the chat-ID option at its empty default that attempt
fails and the run exits 1 despite the successfully produced archive,
so exit status 0 with a non-empty result set requires a non-empty
chat ID. -/
theorem notify_requires_chat_id (cfg : Config) (env : RunEnv)
    (ar : List ZipEntry) (hroot : env.rootOk = true)
    (hlen : (walkFound cfg env).length > 0)
    (hzip : zipImages env.zipFs (walkFound cfg env) = .ok ar)
    (hstat : env.zipStatOk = true)
    (hsize : ¬ env.zipSize > 20 * 1024 * 1024) :
    (run cfg env).sentMessage = true ∧
    (cfg.telegramChatID = "" →
      run cfg env = ⟨1, walkFound cfg env, some ar, true, false⟩) ∧
    ((run cfg env).exit = 0 → cfg.telegramChatID ≠ "") := by
  unfold run
  simp only [hroot, Bool.not_true, Bool.false_eq_true, if_false, hlen,
    if_true, hzip, hstat, hsize]
  by_cases hc : cfg.telegramChatID = ""
  · simp [sendMessageToTelegram, hc]
  · have hcb : (cfg.telegramChatID == "") = false := by
      simp [hc]
    simp only [sendMessageToTelegram, hcb, Bool.false_eq_true, if_false]
    cases env.msgTransportOk
    · simp [hc]
    · simp only [if_true]
      split
      · split <;> simp [hc]
      · simp [hc]

theorem notify_requires_chat_id_witness :
    run cfgNoChat envW =
      ⟨1, walkFound cfgNoChat envW,
       some ((walkFound cfgNoChat envW).map (mkZipEntry sampleFs)),
       true, false⟩ :=
  (notify_requires_chat_id cfgNoChat envW
    ((walkFound cfgNoChat envW).map (mkZipEntry sampleFs))
    rfl (by decide) (by rfl) rfl (by decide)).2.1 rfl

end ZiperImager
